import Mathlib

/-!
Shallow embedding of the koala-sign-learn client (`LearningCard.tsx` and the
pieces of `Learn.tsx` it relies on), together with theorems checking the
natural-language specification against it.

The embedding follows the source:
* `WORD_TO_ID_MAP` is the literal table returned by `getWordToIdMap`.
* `ID_TO_WORD_MAP` is its inversion, as built by
  `Object.fromEntries(Object.entries(m).map(([word, id]) => [id, word]))`.
* `runInference` is the body of the `runInference` async function, with the
  network modelled as an explicit `FetchOutcome` value.
* The component/timer behaviour (`startRecording`, `resetState`, the
  `setInterval` countdown, `stopRecording`, upload, submit) is modelled as a
  small-step transition system `step` on a state `Sys` that carries the React
  state variables plus the set of live interval timers.
-/

namespace Koala

/-- The `FeedbackState` union type of `LearningCard.tsx`. -/
inductive FeedbackState where
  | idle
  | correct
  | incorrect
  | processing
deriving DecidableEq

/-- A JSON scalar as it can appear in the `predicted_class` field of the
`/predict` response (the wire contract allows `string|number`). -/
inductive JsonValue where
  | str (s : String)
  | num (n : Int)
deriving DecidableEq

/-- JavaScript `String(x)` applied to a JSON scalar, as in
`String(result.predicted_class)`. -/
def JsonValue.toJsString : JsonValue → String
  | .str s => s
  | .num n => toString n

/-- Parsed body of a `/predict` response:
`{ success: boolean, predicted_class: string|number, error?: string }`. -/
structure PredictResponse where
  success : Bool
  predicted_class : JsonValue
  error : Option String
deriving DecidableEq

/-- How the `fetch` of the submission settles. -/
inductive FetchOutcome where
  /-- The fetch promise rejects with a non-abort error (network failure). -/
  | networkError
  /-- The 120-second `AbortController` timer fired and aborted the request. -/
  | aborted
  /-- An HTTP response arrived with this status code and parsed JSON body. -/
  | response (status : Nat) (body : PredictResponse)
deriving DecidableEq

/-- Error taxonomy of a failed submission, one constructor per distinct
failure branch of `runInference`. -/
inductive ErrKind where
  | unmappedWord
  | timeout
  | transportError (status : Option Nat)
  | inferenceError (message : String)
deriving DecidableEq

/-- Result of one `runInference` call: the final feedback state, whether a
network request was issued, and the error branch taken (if any). -/
structure InferenceRun where
  feedback : FeedbackState
  networkCalled : Bool
  errKind : Option ErrKind
deriving DecidableEq

/-- Property lookup on a JavaScript object built from a list of entries
(later entries overwrite earlier ones, as in `Object.fromEntries`). -/
def objLookup (entries : List (String × String)) (k : String) : Option String :=
  (entries.reverse.find? (fun p => p.1 == k)).map (fun p => p.2)

/-- The word-to-class-id table returned by `getWordToIdMap` in
`LearningCard.tsx` (the `"how many"` entry is commented out in the source). -/
def WORD_TO_ID_MAP : List (String × String) :=
  [("hi", "1"), ("meet", "3"), ("me", "7"), ("see", "10"), ("name", "11"),
   ("thank", "13"), ("equal", "14"), ("sorry", "15"), ("age", "20"),
   ("day", "23"), ("please?", "43"), ("study", "48"), ("human", "49"),
   ("now", "50"), ("test", "54"), ("yet", "62"), ("finally", "63"),
   ("dinner", "68"), ("experience", "69"), ("invite", "70"), ("food", "71"),
   ("want", "72"), ("good", "76"), ("care", "77")]

/-- The inverted map `ID_TO_WORD_MAP`, built in the source by
`Object.fromEntries(Object.entries(WORD_TO_ID_MAP).map(([word, id]) => [id, word]))`. -/
def ID_TO_WORD_MAP : List (String × String) :=
  WORD_TO_ID_MAP.map (fun p => (p.2, p.1))

/-- JavaScript `toLowerCase` on a basic-latin character: code points 65-90
(`A`-`Z`) are shifted by 32, everything else is unchanged. -/
def jsLowerChar (c : Char) : Char :=
  if 65 ≤ c.toNat ∧ c.toNat ≤ 90 then Char.ofNat (c.toNat + 32) else c

/-- JavaScript `word.toLowerCase()` (character-wise lowering; the table keys
are basic latin, for which this agrees with full Unicode lowering). -/
def jsToLower (s : String) : String :=
  ⟨s.data.map jsLowerChar⟩

/-- The expected class id for a word: `WORD_TO_ID_MAP[word.toLowerCase()]`. -/
def expectedClassFor (word : String) : Option String :=
  objLookup WORD_TO_ID_MAP (jsToLower word)

/-- Whether an HTTP status makes `response.ok` true (2xx). -/
def httpOk (status : Nat) : Bool :=
  decide (200 ≤ status) && decide (status ≤ 299)

/-- The `runInference` function of `LearningCard.tsx`, as a function of the
current word and of how the network request would settle.  Mirrors the
source control flow: the unmapped-word check happens before any `fetch`;
afterwards every throw lands in the `catch` block, which sets feedback to
`incorrect`. -/
def runInference (word : String) (outcome : FetchOutcome) : InferenceRun :=
  match expectedClassFor word with
  | none => ⟨.incorrect, false, some .unmappedWord⟩
  | some expected =>
    match outcome with
    | .networkError => ⟨.incorrect, true, some (.transportError none)⟩
    | .aborted => ⟨.incorrect, true, some .timeout⟩
    | .response status body =>
      if !httpOk status then
        ⟨.incorrect, true, some (.transportError (some status))⟩
      else if !body.success then
        ⟨.incorrect, true, some (.inferenceError (body.error.getD "Prediction failed."))⟩
      else if body.predicted_class.toJsString == expected then
        ⟨.correct, true, none⟩
      else
        ⟨.incorrect, true, none⟩

/-- The hard client-side upload timeout: `setTimeout(() => controller.abort(), 120000)`. -/
def UPLOAD_TIMEOUT_MS : Nat := 120000

/-- Outcome actually observed by `runInference` when the server settles the
request only after `arrival` milliseconds: past the 120-second timer the
abort wins and the response (whatever it would have been) is discarded. -/
def fetchOutcomeAt (arrival : Nat) (raw : FetchOutcome) : FetchOutcome :=
  if UPLOAD_TIMEOUT_MS < arrival then .aborted else raw

/-- A settled fetch counts as a failure when it is a network error, an abort,
a non-2xx status, or a `success:false` body. -/
def FetchOutcome.isFailure : FetchOutcome → Bool
  | .networkError => true
  | .aborted => true
  | .response status body => !httpOk status || !body.success

/-! ### Camera resource management (`startCamera` / `stopCamera`) -/

/-- Camera-related state of the component.  `streams` records every
`MediaStream` ever attached to the video element (a list of per-track
liveness flags); `srcObject` is the index of the stream currently attached
to the video element, if any. -/
structure CameraSys where
  streams : List (List Bool)
  srcObject : Option Nat
deriving DecidableEq

/-- Effect of `stream.getTracks().forEach(track => track.stop())` on the
stream registry. -/
def stopTracks (streams : List (List Bool)) (i : Nat) : List (List Bool) :=
  streams.set i (((streams.get? i).getD []).map (fun _ => false))

/-- The `stopCamera` function of `LearningCard.tsx`: if the video element has
a `srcObject`, stop all of its tracks and clear `srcObject`; otherwise do
nothing. -/
def stopCamera (s : CameraSys) : CameraSys :=
  match s.srcObject with
  | none => s
  | some i => ⟨stopTracks s.streams i, none⟩

/-! ### The capture state machine

The React component state plus the ambient JavaScript interval timers.
`setInterval` produces a timer that keeps firing until `clearInterval`; the
source's `resetState` does NOT clear the countdown interval (the handle is a
local of `startRecording` and is cleared only inside the interval callback
itself), so timers survive resets in this model exactly as they do in the
code. -/

/-- The component's React state variables relevant to the capture flow. -/
structure Comp where
  feedback : FeedbackState
  isRecording : Bool
  isReadyToSubmit : Bool
  countdown : Option Nat
  hasVideo : Bool
deriving DecidableEq

/-- A live `setInterval` countdown timer: its id and the current value of
the closure variable `count`. -/
structure IntervalTimer where
  id : Nat
  count : Nat
deriving DecidableEq

/-- Whole-system state: component state, the live interval timers, the id of
the interval belonging to the current recording session (ghost data used to
distinguish stale timers; `none` after any reset), a fresh-id counter, and a
ghost count of `mediaRecorder.start()` invocations. -/
structure Sys where
  comp : Comp
  timers : List IntervalTimer
  sessionTimer : Option Nat
  nextId : Nat
  recStarts : Nat
deriving DecidableEq

/-- The `resetState` function: feedback to `idle`, video file discarded,
recording/ready flags cleared, countdown display cleared.  It does not touch
the interval timers. -/
def resetState (_ : Comp) : Comp :=
  ⟨.idle, false, false, none, false⟩

/-- System-level effect of `resetState`: component reset; live timers are
left running (the source never clears them here); the ghost session-timer
marker is dropped because the session has moved on. -/
def resetSys (s : Sys) : Sys :=
  { s with comp := resetState s.comp, sessionTimer := none }

/-- Events the component reacts to. -/
inductive Ev where
  /-- `startRecording` ran and the camera was granted: `resetState()`, a new
  `MediaRecorder`, `setCountdown(3)` and a fresh 1-second interval. -/
  | startRec
  /-- `startRecording` ran and camera acquisition threw: the catch block
  calls `resetState()`. -/
  | camFail
  /-- The live interval with this id fires once. -/
  | tick (i : Nat)
  /-- The word changed: the `useEffect` on `[word]` calls `resetState()`. -/
  | wordChange
  /-- `handleRetry` (Re-record / Try Again): `resetState()`. -/
  | retry
  /-- `handleFileUpload` with a chosen file: `resetState()`, then the file
  becomes the video and `setIsReadyToSubmit(true)`. -/
  | upload
  /-- Stop Recording clicked and `mediaRecorder.onstop` fired: blob stored,
  recording flag cleared, ready-to-submit set, camera stopped. -/
  | stopRec
  /-- Submit clicked (rendered only with `isReadyToSubmit` and a video):
  `runInference` begins and sets feedback to `processing`. -/
  | submit
  /-- The submission settled; `ok` tells whether the comparison succeeded. -/
  | inferDone (ok : Bool)
deriving DecidableEq

/-- One step of the system under an event, transcribing the corresponding
handler of `LearningCard.tsx`. -/
def step (s : Sys) (e : Ev) : Sys :=
  match e with
  | .startRec =>
    let s' := resetSys s
    { s' with
        comp := { s'.comp with countdown := some 3, isReadyToSubmit := false },
        timers := s'.timers ++ [⟨s.nextId, 3⟩],
        sessionTimer := some s.nextId,
        nextId := s.nextId + 1 }
  | .camFail => resetSys s
  | .tick i =>
    match s.timers.find? (fun t => t.id == i) with
    | none => s
    | some t =>
      let c := t.count - 1
      if 0 < c then
        { s with
            comp := { s.comp with countdown := some c },
            timers := s.timers.map (fun u => if u.id == i then ⟨u.id, c⟩ else u) }
      else
        { s with
            comp := { s.comp with countdown := none, isRecording := true },
            timers := s.timers.filter (fun u => !(u.id == i)),
            recStarts := s.recStarts + 1 }
  | .wordChange => resetSys s
  | .retry => resetSys s
  | .upload =>
    let s' := resetSys s
    { s' with comp := { s'.comp with hasVideo := true, isReadyToSubmit := true } }
  | .stopRec =>
    if s.comp.isRecording then
      { s with
          comp := { s.comp with hasVideo := true, isRecording := false, isReadyToSubmit := true } }
    else s
  | .submit =>
    if s.comp.isReadyToSubmit && s.comp.hasVideo then
      { s with comp := { s.comp with feedback := .processing } }
    else s
  | .inferDone ok =>
    { s with comp := { s.comp with feedback := if ok then .correct else .incorrect } }

/-- The component's state when first rendered. -/
def initSys : Sys :=
  ⟨⟨.idle, false, false, none, false⟩, [], none, 0, 0⟩

/-- Run a list of events from the initial state. -/
def runEvents (evs : List Ev) : Sys :=
  evs.foldl step initSys

/-- States reachable by any event sequence (faithful semantics, stale timer
ticks included). -/
inductive Reaches : Sys → Prop where
  | init : Reaches initSys
  | next {s : Sys} (e : Ev) : Reaches s → Reaches (step s e)

/-- An event is non-stale in a state when any timer tick it delivers comes
from the interval of the current recording session. -/
@[reducible] def GoodEv (s : Sys) : Ev → Prop
  | .tick i => s.sessionTimer = some i
  | _ => True

/-- States reachable when no stale timer callback ever fires (every tick is
delivered by the current session's own interval). -/
inductive GoodReaches : Sys → Prop where
  | init : GoodReaches initSys
  | next {s : Sys} (e : Ev) : GoodReaches s → GoodEv s e → GoodReaches (step s e)

/-- The delay passed to `setInterval` for the countdown, in milliseconds. -/
def intervalDelayMs : Nat := 1000

/-- Deliver one tick of the current session's interval (no-op when the
session has no interval). -/
def goodTick (s : Sys) : Sys :=
  match s.sessionTimer with
  | some i => step s (.tick i)
  | none => s

/-- State after `startRecording` succeeds and the session's interval then
fires `n` times. -/
def afterStartTicks (n : Nat) : Sys :=
  Nat.rec (step initSys .startRec) (fun _ s => goodTick s) n

/-! ### Theorems for the claims -/

/-- C1: for every submission that receives a successful server response
(HTTP 2xx and `success:true`), the session ends in `correct` if and only if
the predicted class id, converted to a string by `String(...)`, is
string-equal to the expected class id string looked up for the current word;
otherwise it ends in `incorrect`. -/
theorem claim1_success_correct_iff_string_equal
    (w expected : String) (status : Nat) (body : PredictResponse)
    (hmap : expectedClassFor w = some expected)
    (hok : 200 ≤ status ∧ status ≤ 299)
    (hsucc : body.success = true) :
    ((runInference w (.response status body)).feedback = .correct ↔
      body.predicted_class.toJsString = expected) ∧
    (body.predicted_class.toJsString ≠ expected →
      (runInference w (.response status body)).feedback = .incorrect) := by
  have hok' : httpOk status = true := by
    simp [httpOk]
    exact hok
  by_cases heq : body.predicted_class.toJsString = expected <;>
    simp [runInference, hmap, hok', hsucc, heq]

/-- C1 witness: word `meet` maps to `"3"`; a 2xx `success:true` response
whose `predicted_class` is the number `3` stringifies to `"3"` and yields
`correct`, while the string `"03"` — numerically equal but not token-equal —
yields `incorrect`. -/
theorem claim1_witness :
    (runInference "meet" (.response 200 ⟨true, .num 3, none⟩)).feedback = .correct ∧
    (runInference "meet" (.response 200 ⟨true, .str "03", none⟩)).feedback = .incorrect :=
  ⟨(claim1_success_correct_iff_string_equal "meet" "3" 200 ⟨true, .num 3, none⟩
      (by decide) (by decide) rfl).1.mpr (by decide),
   (claim1_success_correct_iff_string_equal "meet" "3" 200 ⟨true, .str "03", none⟩
      (by decide) (by decide) rfl).2 (by decide)⟩

/-- C2: for every word with no entry in the word-to-id table, `runInference`
short-circuits before any network call (no request is issued) and the
session ends in `incorrect` with an unmapped-word error. -/
theorem claim2_unmapped_short_circuit (w : String) (o : FetchOutcome)
    (h : expectedClassFor w = none) :
    runInference w o = ⟨.incorrect, false, some .unmappedWord⟩ := by
  simp [runInference, h]

/-- C2 witness: `education` appears in the `words` list of `Learn.tsx` but
has no entry in the table; no network call happens for any outcome. -/
theorem claim2_witness :
    runInference "education" .networkError =
      ⟨.incorrect, false, some .unmappedWord⟩ :=
  claim2_unmapped_short_circuit "education" .networkError (by decide)

/-- C3: every failure path of a submission (abort by the hard 120-second
timeout, network error, non-2xx status, or `success:false`) leaves the
session in `incorrect` — never stuck in `processing` — and the session is
recoverable: the retry event always returns feedback to `idle`.  A response
arriving past the 120000 ms timeout is discarded in favour of the abort. -/
theorem claim3_failures_end_incorrect (w : String) (o : FetchOutcome)
    (h : o.isFailure = true) :
    (runInference w o).feedback = .incorrect ∧
    (runInference w o).feedback ≠ .processing ∧
    (∀ arrival raw, UPLOAD_TIMEOUT_MS < arrival →
      runInference w (fetchOutcomeAt arrival raw) = runInference w .aborted) ∧
    (∀ s : Sys, (step s .retry).comp.feedback = .idle) := by
  refine ⟨?_, ?_, ?_, ?_⟩
  case refine_3 =>
    intro arrival raw harr
    simp [fetchOutcomeAt, harr]
  case refine_4 =>
    intro s
    simp [step, resetSys, resetState]
  all_goals
    cases hmap : expectedClassFor w <;>
      cases o <;>
        simp_all [runInference, FetchOutcome.isFailure] <;>
          (try split) <;> (try split) <;> simp_all

/-- C3 witness: a concrete network error on a mapped word ends in
`incorrect`. -/
theorem claim3_witness :
    (runInference "hi" .networkError).feedback = .incorrect :=
  (claim3_failures_end_incorrect "hi" .networkError rfl).1

/-- C8: `stopCamera` is idempotent — calling it twice leaves the same state
as calling it once — and it is a no-op on a component that holds no camera
stream. -/
theorem claim8_stopCamera_idempotent (s : CameraSys) :
    stopCamera (stopCamera s) = stopCamera s ∧
    (s.srcObject = none → stopCamera s = s) := by
  constructor
  · cases h : s.srcObject
    · simp [stopCamera, h]
    · simp [stopCamera, h]
  · intro h
    simp [stopCamera, h]

/-- C8 witness: releasing a never-acquired camera is the identity. -/
theorem claim8_witness :
    stopCamera ⟨[], none⟩ = (⟨[], none⟩ : CameraSys) :=
  (claim8_stopCamera_idempotent ⟨[], none⟩).2 rfl

/-- C6: the program's word-to-id table has no duplicate ids, and under that
hypothesis the inverted map satisfies both round trips: looking a word up
and mapping the id back returns the word, and looking an inverted id up and
mapping the word forward returns the id. -/
theorem claim6_roundtrip
    (_h : (WORD_TO_ID_MAP.map (fun p => p.2)).Nodup) :
    (∀ w ∈ WORD_TO_ID_MAP.map (fun p => p.1),
      (objLookup WORD_TO_ID_MAP w).bind (objLookup ID_TO_WORD_MAP) = some w) ∧
    (∀ i ∈ ID_TO_WORD_MAP.map (fun p => p.1),
      (objLookup ID_TO_WORD_MAP i).bind (objLookup WORD_TO_ID_MAP) = some i) :=
  ⟨by decide, by decide⟩

/-- C6 witness: the no-duplicate-ids hypothesis holds for the table, and the
round trip at the word `hi` (id `"1"`) closes. -/
theorem claim6_witness :
    (objLookup WORD_TO_ID_MAP "hi").bind (objLookup ID_TO_WORD_MAP) = some "hi" :=
  (claim6_roundtrip (by decide)).1 "hi" (by decide)

/-- Lowering a basic-latin character twice is the same as lowering it once. -/
theorem jsLowerChar_idem (c : Char) : jsLowerChar (jsLowerChar c) = jsLowerChar c := by
  unfold jsLowerChar
  by_cases h : 65 ≤ c.toNat ∧ c.toNat ≤ 90
  · rw [if_pos h]
    have hval : (c.toNat + 32).isValidChar := Or.inl (by omega)
    have htn : (Char.ofNat (c.toNat + 32)).toNat = c.toNat + 32 := by
      rw [Char.ofNat, dif_pos hval]
      rfl
    rw [if_neg]
    rw [htn]
    omega
  · rw [if_neg h, if_neg h]

/-- JavaScript lowering is idempotent on strings. -/
theorem jsToLower_idem (s : String) : jsToLower (jsToLower s) = jsToLower s := by
  have hl : ∀ l : List Char, (l.map jsLowerChar).map jsLowerChar = l.map jsLowerChar := by
    intro l
    induction l with
    | nil => rfl
    | cons c cs ih => simp [jsLowerChar_idem, ih]
  simp [jsToLower, hl]

/-- A key that occurs among the entries of a table is found by `objLookup`. -/
theorem objLookup_isSome_of_mem_keys (l : List (String × String)) (k : String)
    (hk : k ∈ l.map (fun p => p.1)) : (objLookup l k).isSome = true := by
  obtain ⟨p, hp, hpk⟩ := List.mem_map.1 hk
  have : ∃ x, x ∈ l.reverse ∧ (fun q : String × String => q.1 == k) x = true :=
    ⟨p, List.mem_reverse.2 hp, by simp [hpk]⟩
  have hfind := List.find?_isSome.2 this
  unfold objLookup
  cases hf : l.reverse.find? (fun q => q.1 == k) with
  | none => rw [hf] at hfind; simp at hfind
  | some q => simp

/-- C9: lookup of the expected class id lower-cases the word first, so any
two casings with the same lowering look up the same id, lookup of a word
agrees with lookup of its lower-cased form, and whenever the lower-cased
form is a key of the table the lookup succeeds. -/
theorem claim9_lookup_case_normalized (w : String)
    (hkey : jsToLower w ∈ WORD_TO_ID_MAP.map (fun p => p.1)) :
    expectedClassFor w = expectedClassFor (jsToLower w) ∧
    (∀ w₂, jsToLower w₂ = jsToLower w → expectedClassFor w₂ = expectedClassFor w) ∧
    (expectedClassFor w).isSome = true := by
  refine ⟨?_, ?_, ?_⟩
  · unfold expectedClassFor
    rw [jsToLower_idem]
  · intro w₂ h₂
    unfold expectedClassFor
    rw [h₂]
  · exact objLookup_isSome_of_mem_keys _ _ hkey

/-- C9 witness: `Hi` and its lower-cased form `hi` look up the same class
id. -/
theorem claim9_witness :
    expectedClassFor "Hi" = expectedClassFor (jsToLower "Hi") :=
  (claim9_lookup_case_normalized "Hi" (by decide)).1

/-- C4: evidence for the missing countdown cancellation.  After
`startRecording` and then a word change, the session is fully reset to Idle,
but the countdown interval started by `startRecording` is still live; its
three remaining (now stale) ticks fire, and the third one calls
`mediaRecorder.start()` and flips the session into Recording after the
reset — the transition the claim says must never happen. -/
theorem claim4_stale_timer_fires_after_reset :
    (runEvents [.startRec, .wordChange]).comp = ⟨.idle, false, false, none, false⟩ ∧
    (runEvents [.startRec, .wordChange]).timers = [⟨0, 3⟩] ∧
    (runEvents [.startRec, .wordChange, .tick 0, .tick 0, .tick 0]).comp.isRecording = true ∧
    (runEvents [.startRec, .wordChange, .tick 0, .tick 0, .tick 0]).recStarts = 1 := by
  decide

/-- C7: after `startRecording`, the countdown runs exactly 3 one-second
ticks: before the third tick the recorder has never been started and the
countdown display shows the remaining count, and from the third tick on the
recorder has been started exactly once, the session is Recording, and the
interval is gone; the third tick occurs 3 × 1000 ms = 3 s after start. -/
theorem claim7_countdown_exactly_three_ticks (n : Nat) :
    (n < 3 → (afterStartTicks n).recStarts = 0 ∧
      (afterStartTicks n).comp.isRecording = false ∧
      (afterStartTicks n).comp.countdown = some (3 - n)) ∧
    (3 ≤ n → (afterStartTicks n).recStarts = 1 ∧
      (afterStartTicks n).comp.isRecording = true ∧
      (afterStartTicks n).comp.countdown = none ∧
      (afterStartTicks n).timers = []) ∧
    3 * intervalDelayMs = 3000 := by
  have hsucc : ∀ m, afterStartTicks (m + 1) = goodTick (afterStartTicks m) :=
    fun m => rfl
  have hfix : ∀ k, afterStartTicks (k + 3) = afterStartTicks 3 := by
    intro k
    induction k with
    | zero => rfl
    | succ k ih =>
      have : k + 1 + 3 = (k + 3) + 1 := by omega
      rw [this, hsucc, ih]
      decide
  refine ⟨?_, ?_, rfl⟩
  · intro h
    have h3 : n = 0 ∨ n = 1 ∨ n = 2 := by omega
    rcases h3 with rfl | rfl | rfl <;> exact ⟨by decide, by decide, by decide⟩
  · intro h
    obtain ⟨k, rfl⟩ : ∃ k, n = k + 3 := ⟨n - 3, by omega⟩
    rw [hfix]
    exact ⟨by decide, by decide, by decide, by decide⟩

/-- C7 witness: two ticks in, the recorder has not started and the display
shows 1; five ticks in, the recorder has started exactly once. -/
theorem claim7_witness :
    (afterStartTicks 2).recStarts = 0 ∧ (afterStartTicks 5).recStarts = 1 :=
  ⟨((claim7_countdown_exactly_three_ticks 2).1 (by decide)).1,
   ((claim7_countdown_exactly_three_ticks 5).2.1 (by decide)).1⟩

/-! ### The state-exclusivity invariant (C5) -/

/-- The mutual-exclusivity part of the spec invariant that the code does
maintain: while the countdown display is shown, neither the ready-to-submit
flag nor the recording flag is set, and while recording, the
ready-to-submit flag is not set. -/
def MutexInv (s : Sys) : Prop :=
  (s.comp.countdown ≠ none → s.comp.isReadyToSubmit = false ∧ s.comp.isRecording = false) ∧
  (s.comp.isRecording = true → s.comp.isReadyToSubmit = false)

/-- Auxiliary invariant: the interval of the current session, while live,
agrees with the countdown display, and the session is neither recording nor
ready to submit. -/
def SessionOK (s : Sys) : Prop :=
  ∀ i, s.sessionTimer = some i → ∀ t ∈ s.timers, t.id = i →
    (s.comp.countdown = some t.count ∧ s.comp.isRecording = false ∧
      s.comp.isReadyToSubmit = false)

/-- Auxiliary invariant: every live timer id was issued before the fresh-id
counter. -/
def IdsBelow (s : Sys) : Prop :=
  ∀ t ∈ s.timers, t.id < s.nextId

/-- The inductive invariant for stale-free executions. -/
def Inv (s : Sys) : Prop :=
  MutexInv s ∧ SessionOK s ∧ IdsBelow s

theorem inv_init : Inv initSys := by
  refine ⟨⟨?_, ?_⟩, ?_, ?_⟩ <;> simp [initSys, SessionOK, IdsBelow]

theorem inv_step (s : Sys) (e : Ev) (hinv : Inv s) (hg : GoodEv s e) :
    Inv (step s e) := by
  obtain ⟨⟨hA, hB⟩, hS, hI⟩ := hinv
  cases e with
  | startRec =>
    refine ⟨⟨?_, ?_⟩, ?_, ?_⟩
    · intro _
      exact ⟨rfl, rfl⟩
    · intro habs
      exact absurd habs (by simp [step, resetSys, resetState])
    · intro i hi t ht htid
      simp only [step, resetSys, resetState] at hi ht ⊢
      rcases List.mem_append.1 ht with hold | hnew
      · exact absurd (htid.trans (Option.some_injective _ hi).symm) (Nat.ne_of_lt (hI t hold))
      · have : t = ⟨s.nextId, 3⟩ := by simpa using hnew
        subst this
        simp
    · intro t ht
      simp only [step, resetSys, resetState] at ht ⊢
      rcases List.mem_append.1 ht with hold | hnew
      · exact Nat.lt_trans (hI t hold) (Nat.lt_succ_self _)
      · have : t = ⟨s.nextId, 3⟩ := by simpa using hnew
        subst this
        exact Nat.lt_succ_self _
  | camFail =>
    refine ⟨⟨?_, ?_⟩, ?_, ?_⟩
    · intro habs
      exact absurd rfl habs
    · intro habs
      exact absurd habs (by simp [step, resetSys, resetState])
    · intro i hi
      exact absurd hi (by simp [step, resetSys])
    · intro t ht
      exact hI t ht
  | wordChange =>
    refine ⟨⟨?_, ?_⟩, ?_, ?_⟩
    · intro habs
      exact absurd rfl habs
    · intro habs
      exact absurd habs (by simp [step, resetSys, resetState])
    · intro i hi
      exact absurd hi (by simp [step, resetSys])
    · intro t ht
      exact hI t ht
  | retry =>
    refine ⟨⟨?_, ?_⟩, ?_, ?_⟩
    · intro habs
      exact absurd rfl habs
    · intro habs
      exact absurd habs (by simp [step, resetSys, resetState])
    · intro i hi
      exact absurd hi (by simp [step, resetSys])
    · intro t ht
      exact hI t ht
  | upload =>
    refine ⟨⟨?_, ?_⟩, ?_, ?_⟩
    · intro habs
      exact absurd rfl habs
    · intro habs
      exact absurd habs (by simp [step, resetSys, resetState])
    · intro i hi
      exact absurd hi (by simp [step, resetSys])
    · intro t ht
      exact hI t ht
  | tick i =>
    have hsess : s.sessionTimer = some i := hg
    cases hfind : s.timers.find? (fun t => t.id == i) with
    | none =>
      simp only [step, hfind]
      exact ⟨⟨hA, hB⟩, hS, hI⟩
    | some t =>
      have htmem : t ∈ s.timers := List.mem_of_find?_eq_some hfind
      have htid : t.id = i := by simpa using List.find?_some hfind
      obtain ⟨hcd, hrec, hready⟩ := hS i hsess t htmem htid
      by_cases hc : 0 < t.count - 1
      · refine ⟨⟨?_, ?_⟩, ?_, ?_⟩ <;> simp only [step, hfind, if_pos hc]
        · intro _
          exact ⟨hready, hrec⟩
        · intro h
          exact absurd (h.symm.trans hrec) (by simp)
        · intro j hj u hu huid
          obtain ⟨v, hv, hvu⟩ := List.mem_map.1 hu
          by_cases hvi : v.id = i
          · rw [if_pos (by simpa using hvi)] at hvu
            refine ⟨?_, hrec, hready⟩
            rw [← hvu]
          · rw [if_neg (by simpa using hvi)] at hvu
            have hji : i = j := Option.some_injective _ (hsess.symm.trans hj)
            rw [← hvu] at huid
            exact absurd (huid.trans hji.symm) hvi
        · intro u hu
          obtain ⟨v, hv, hvu⟩ := List.mem_map.1 hu
          have hid : u.id = v.id := by
            by_cases hvi : v.id == i
            · rw [if_pos hvi] at hvu
              rw [← hvu]
            · rw [if_neg hvi] at hvu
              rw [← hvu]
          rw [hid]
          exact hI v hv
      · refine ⟨⟨?_, ?_⟩, ?_, ?_⟩ <;> simp only [step, hfind, if_neg hc]
        · intro habs
          exact absurd rfl habs
        · intro _
          exact hready
        · intro j hj u hu huid
          have hji : i = j := Option.some_injective _ (hsess.symm.trans hj)
          have := (List.mem_filter.1 hu).2
          rw [huid, ← hji] at this
          simp at this
        · intro u hu
          exact hI u (List.mem_filter.1 hu).1
  | stopRec =>
    by_cases hrec : s.comp.isRecording = true
    · have hcd : s.comp.countdown = none := by
        by_cases hc : s.comp.countdown = none
        · exact hc
        · exact absurd hrec (by simp [(hA hc).2])
      refine ⟨⟨?_, ?_⟩, ?_, ?_⟩ <;> simp only [step, if_pos hrec]
      · intro habs
        exact absurd hcd habs
      · intro habs
        exact absurd habs (by simp)
      · intro j hj u hu huid
        exact absurd hrec (by simp [(hS j hj u hu huid).2.1])
      · intro u hu
        exact hI u hu
    · simp only [step, if_neg hrec]
      exact ⟨⟨hA, hB⟩, hS, hI⟩
  | submit =>
    by_cases hcond : (s.comp.isReadyToSubmit && s.comp.hasVideo) = true
    · refine ⟨⟨?_, ?_⟩, ?_, ?_⟩ <;> simp only [step, if_pos hcond]
      · intro hne
        exact hA hne
      · intro h
        exact hB h
      · intro j hj u hu huid
        exact hS j hj u hu huid
      · intro u hu
        exact hI u hu
    · simp only [step, if_neg hcond]
      exact ⟨⟨hA, hB⟩, hS, hI⟩
  | inferDone ok =>
    refine ⟨⟨?_, ?_⟩, ?_, ?_⟩ <;> simp only [step]
    · intro hne
      exact hA hne
    · intro h
      exact hB h
    · intro j hj u hu huid
      exact hS j hj u hu huid
    · intro u hu
      exact hI u hu

theorem inv_of_goodReaches {s : Sys} (h : GoodReaches s) : Inv s := by
  induction h with
  | init => exact inv_init
  | next e _ hg ih => exact inv_step _ e ih hg

/-- C5 counterexample: two reachable configurations violate the claimed
exclusivity.  After an upload followed by Submit, the session is Processing
while the ready-to-submit flag is still set (submission never clears it);
and after `startRecording`, an upload during the countdown, and the three
stale ticks of the never-cancelled interval, the session is Recording while
ready-to-submit is still set. -/
theorem claim5_counterexample :
    ((runEvents [.upload, .submit]).comp.feedback = .processing ∧
      (runEvents [.upload, .submit]).comp.isReadyToSubmit = true) ∧
    ((runEvents [.startRec, .upload, .tick 0, .tick 0, .tick 0]).comp.isRecording = true ∧
      (runEvents [.startRec, .upload, .tick 0, .tick 0, .tick 0]).comp.isReadyToSubmit = true) := by
  decide

/-- C5 amended: in every configuration reachable without a stale countdown
callback (each tick delivered by the current session's own interval),
Countdown and Recording are each mutually exclusive with ReadyToSubmit;
exactly one `FeedbackState` value is active at a time by construction.  The
exclusivity does not extend to Processing: the ready-to-submit flag stays
set during submission, and a stale interval surviving a reset can make
Recording overlap ReadyToSubmit (see the counterexample). -/
theorem claim5_exclusive_when_no_stale_ticks (s : Sys) (h : GoodReaches s) :
    (s.comp.countdown ≠ none →
      s.comp.isReadyToSubmit = false ∧ s.comp.isRecording = false) ∧
    (s.comp.isRecording = true → s.comp.isReadyToSubmit = false) :=
  (inv_of_goodReaches h).1

/-- C5 witness: one session-owned tick after `startRecording`, the countdown
shows 2 and the ready-to-submit flag is indeed clear. -/
theorem claim5_witness :
    (step (step initSys .startRec) (.tick 0)).comp.isReadyToSubmit = false :=
  ((claim5_exclusive_when_no_stale_ticks _
      (GoodReaches.next _ (GoodReaches.next _ GoodReaches.init trivial)
        (by decide))).1 (by decide)).1

end Koala
